import Mathlib

/-
Verification of the pad-footing bearing-pressure calculator (src/src/App.tsx).

The calculator is a single React component whose logic is:
  * `validateInputs` — each of the five raw fields must be a non-empty
    string whose `parseFloat` is not NaN and not ≤ 0;
  * `calculateQmax` — computes the critical eccentricity
    `ek = (M/P) || (1/6)*D` and branches on `e < ek` / `e === ek` / else,
    storing a numeric result and a case label in component state;
  * `saveResult` — appends a snapshot to `savedResults` (no-op when the
    current `qmax` is null);
  * `exportToCSV` — joins a fixed header row and one formatted row per
    saved result with newlines (no-op when the log is empty);
  * `formatNumber` — `Number(num.toPrecision(3)).toString()`.

JavaScript numbers are modelled by `JSNum`: NaN, the two infinities, or an
exact rational.  This is the exact-arithmetic idealisation of IEEE doubles:
finite values carry no rounding and zero carries no sign (a zero produced
by the program's arithmetic on its positive inputs is always `+0`, which is
how `JSNum.div` treats a zero divisor).  The special-value rules (NaN
propagation, comparisons involving NaN, signs of infinities, division by
zero) follow the ECMAScript semantics.
-/

/-- A JavaScript number: NaN, +Infinity, -Infinity, or a finite value
(idealised as an exact rational). -/
inductive JSNum where
  | nan : JSNum
  | posInf : JSNum
  | negInf : JSNum
  | fin : ℚ → JSNum
deriving DecidableEq

namespace JSNum

/-- JS `isNaN`. -/
def isNaN : JSNum → Bool
  | nan => true
  | _ => false

/-- JS truthiness of a number: falsy exactly for NaN, +0 and -0. -/
def truthy : JSNum → Bool
  | nan => false
  | fin q => decide (q ≠ 0)
  | _ => true

/-- JS negation `-x`. -/
def neg : JSNum → JSNum
  | nan => nan
  | posInf => negInf
  | negInf => posInf
  | fin a => fin (-a)

/-- JS addition (exact-arithmetic idealisation of IEEE `+`). -/
def add : JSNum → JSNum → JSNum
  | nan, _ => nan
  | _, nan => nan
  | posInf, negInf => nan
  | negInf, posInf => nan
  | posInf, _ => posInf
  | _, posInf => posInf
  | negInf, _ => negInf
  | _, negInf => negInf
  | fin a, fin b => fin (a + b)

/-- JS subtraction, `a - b = a + (-b)` (exact for finite operands, IEEE
special-value rules otherwise). -/
def sub (a b : JSNum) : JSNum := a.add b.neg

/-- JS multiplication (exact-arithmetic idealisation of IEEE `*`). -/
def mul : JSNum → JSNum → JSNum
  | nan, _ => nan
  | _, nan => nan
  | posInf, posInf => posInf
  | posInf, negInf => negInf
  | negInf, posInf => negInf
  | negInf, negInf => posInf
  | posInf, fin b => if b = 0 then nan else if 0 < b then posInf else negInf
  | fin a, posInf => if a = 0 then nan else if 0 < a then posInf else negInf
  | negInf, fin b => if b = 0 then nan else if 0 < b then negInf else posInf
  | fin a, negInf => if a = 0 then nan else if 0 < a then negInf else posInf
  | fin a, fin b => fin (a * b)

/-- JS division (exact-arithmetic idealisation of IEEE `/`; a zero divisor
is treated as `+0`, the only sign of zero this program's arithmetic can
produce from its positive inputs). -/
def div : JSNum → JSNum → JSNum
  | nan, _ => nan
  | _, nan => nan
  | posInf, posInf => nan
  | posInf, negInf => nan
  | negInf, posInf => nan
  | negInf, negInf => nan
  | posInf, fin b => if 0 ≤ b then posInf else negInf
  | negInf, fin b => if 0 ≤ b then negInf else posInf
  | fin _, posInf => fin 0
  | fin _, negInf => fin 0
  | fin a, fin b =>
      if b = 0 then (if a = 0 then nan else if 0 < a then posInf else negInf)
      else fin (a / b)

/-- JS `<` on numbers (false whenever an operand is NaN). -/
def lt : JSNum → JSNum → Bool
  | nan, _ => false
  | _, nan => false
  | posInf, _ => false
  | negInf, negInf => false
  | negInf, _ => true
  | fin _, posInf => true
  | fin _, negInf => false
  | fin a, fin b => decide (a < b)

/-- JS strict equality `===` on numbers (false whenever an operand is NaN). -/
def strictEq : JSNum → JSNum → Bool
  | nan, _ => false
  | _, nan => false
  | posInf, posInf => true
  | negInf, negInf => true
  | fin a, fin b => decide (a = b)
  | _, _ => false

/-- JS `<=` on numbers (false whenever an operand is NaN). -/
def le (a b : JSNum) : Bool := a.lt b || a.strictEq b

end JSNum

/-- One raw text field as the calculator sees it: `none` models the empty
string (JS `!value`), `some v` models a non-empty string whose `parseFloat`
result is `v` (`JSNum.nan` for non-numeric text). -/
abbrev RawField := Option JSNum

/-- The five raw input fields P, M, B, D, e of the form. -/
structure RawInputs where
  P : RawField
  M : RawField
  B : RawField
  D : RawField
  e : RawField

/-- `parseFloat` applied to a raw field (the empty string parses to NaN). -/
def parseField : RawField → JSNum
  | none => JSNum.nan
  | some v => v

/-- One iteration of the loop in `validateInputs`: reject an empty field,
then reject when `isNaN(num) || num <= 0`. -/
def validateField (r : RawField) : Bool :=
  match r with
  | none => false
  | some num => !num.isNaN && !(num.le (.fin 0))

/-- `validateInputs` (App.tsx lines 60-68): every one of the five fields
passes `validateField`. -/
def validateInputs (i : RawInputs) : Bool :=
  validateField i.P && validateField i.M && validateField i.B &&
    validateField i.D && validateField i.e

/-- The critical eccentricity `ek = (mVal / pVal) || (1/6) * dVal`
(App.tsx line 86): JS `||` keeps the left operand when it is truthy. -/
def ekJS (mVal pVal dVal : JSNum) : JSNum :=
  if (mVal.div pVal).truthy then mVal.div pVal
  else ((JSNum.fin 1).div (JSNum.fin 6)).mul dVal

/-- The three-way branch of `calculateQmax` (App.tsx lines 86-100) on
already-parsed values: returns the numeric result and the case label. -/
def calculateQmaxCore (pVal mVal bVal dVal eVal : JSNum) : JSNum × String :=
  let ek := ekJS mVal pVal dVal
  if eVal.lt ek then
    ((pVal.div (bVal.mul dVal)).add
      (((JSNum.fin 6).mul mVal).div ((bVal.mul dVal).mul dVal)),
     "Case A: e < ek")
  else if eVal.strictEq ek then
    ((pVal.div (bVal.mul dVal)).add
      (((JSNum.fin 6).mul mVal).div ((bVal.mul dVal).mul dVal)),
     "Case B: e = ek")
  else
    (pVal.div (((JSNum.fin 3).div (JSNum.fin 2)).mul
        (bVal.mul ((dVal.div (JSNum.fin 2)).sub eVal))),
     "Case C: e > ek")

/-- A saved calculation (the `CalculationResult` interface): timestamp,
snapshot of the five parsed inputs, the computed pressure and case label. -/
structure CalculationResult where
  timestamp : String
  P : JSNum
  M : JSNum
  B : JSNum
  D : JSNum
  e : JSNum
  qmax : JSNum
  case : String
deriving DecidableEq

/-- The component state touched by the calculator: `qmax`, `error`,
`calculationCase` and the saved-results log. -/
structure AppState where
  qmax : Option JSNum
  error : String
  calculationCase : String
  savedResults : List CalculationResult
deriving DecidableEq

/-- `calculateQmax` (App.tsx lines 74-105) as a state transformer: on
validation failure it clears `qmax` and sets the error message; otherwise
it parses the five fields, runs the three-way branch, and stores the
result, the case label and an empty error. -/
def calculateQmax (i : RawInputs) (s : AppState) : AppState :=
  if !validateInputs i then
    { s with qmax := none,
             error := "Please enter valid positive numbers for all fields" }
  else
    let pVal := parseField i.P
    let mVal := parseField i.M
    let bVal := parseField i.B
    let dVal := parseField i.D
    let eVal := parseField i.e
    let rc := calculateQmaxCore pVal mVal bVal dVal eVal
    { s with qmax := some rc.1, calculationCase := rc.2, error := "" }

/-- `saveResult` (App.tsx lines 107-124): a no-op while `qmax` is null,
otherwise appends a snapshot of the current parsed inputs, result and case
label to the log. -/
def saveResult (now : String) (i : RawInputs) (s : AppState) : AppState :=
  match s.qmax with
  | none => s
  | some q =>
      { s with savedResults := s.savedResults ++
          [{ timestamp := now,
             P := parseField i.P, M := parseField i.M, B := parseField i.B,
             D := parseField i.D, e := parseField i.e,
             qmax := q, case := s.calculationCase }] }

/-- Decimal digit count of a natural number (length of its base-10 digit
list). -/
def digitCount (n : ℕ) : ℕ := (Nat.toDigits 10 n).length

/-- Strip the trailing decimal zeros of a (at most three digit) number:
`120 ↦ 12`, `100 ↦ 1`, `123 ↦ 123`.  Models the trailing-zero trimming
that `Number(...).toString()` performs on the 3-significant-digit output of
`toPrecision(3)`. -/
def stripZeros3 (n : ℕ) : ℕ :=
  if n % 10 ≠ 0 then n
  else if (n / 10) % 10 ≠ 0 then n / 10
  else n / 100

/-- Digit count of a number known to have at most three digits. -/
def digitLen3 (m : ℕ) : ℕ :=
  if 100 ≤ m then 3 else if 10 ≤ m then 2 else 1

/-- The decimal exponent of a positive rational `a`: the unique `e` with
`10^e ≤ a < 10^(e+1)`, computed from the digit counts of the numerator and
denominator. -/
def decExp (a : ℚ) : ℤ :=
  let nu := a.num.toNat
  let de := a.den
  if de ≤ nu then (digitCount (nu / de) : ℤ) - 1
  else
    let d := digitCount de - digitCount nu
    if de ≤ nu * 10 ^ d then -(d : ℤ) else -(d : ℤ) - 1

/-- `a * 10 ^ (2 - e)` with an integer exponent, kept in exact rational
arithmetic. -/
def scalePow (a : ℚ) (e : ℤ) : ℚ :=
  if 0 ≤ 2 - e then a * 10 ^ (2 - e).toNat else a / 10 ^ (e - 2).toNat

/-- Render a positive value `m * 10 ^ (e - (k-1))`, where `m` is a
`k`-digit significand with no trailing zeros and `e` is the decimal
exponent of the leading digit, the way `Number.prototype.toString` renders
it in plain (non-exponential) notation. -/
def renderSig (m : ℕ) (k : ℕ) (e : ℤ) : String :=
  if (k : ℤ) - 1 ≤ e then
    toString m ++ String.mk (List.replicate (e - ((k : ℤ) - 1)).toNat '0')
  else if 0 ≤ e then
    (toString m).take (e.toNat + 1) ++ "." ++ (toString m).drop (e.toNat + 1)
  else
    "0." ++ String.mk (List.replicate ((-e).toNat - 1) '0') ++ toString m

/-- `Number(q.toPrecision(3)).toString()` on a finite value, in the exact
rational idealisation: round `q` to three significant decimal digits
(`toPrecision` rounds ties away from zero) and render the result with
insignificant trailing zeros trimmed, in plain decimal notation. -/
def formatRat (q : ℚ) : String :=
  if q = 0 then "0"
  else
    let a := |q|
    let e := decExp a
    let n0 := (scalePow a e + 1/2).floor.toNat
    let n := if n0 = 1000 then 100 else n0
    let e2 := if n0 = 1000 then e + 1 else e
    let m := stripZeros3 n
    (if q < 0 then "-" else "") ++ renderSig m (digitLen3 m) e2

/-- `formatNumber` (App.tsx lines 70-72), `Number(num.toPrecision(3)).toString()`,
extended to the special values the way JS evaluates it on them. -/
def formatNumber : JSNum → String
  | JSNum.nan => "NaN"
  | JSNum.posInf => "Infinity"
  | JSNum.negInf => "-Infinity"
  | JSNum.fin q => formatRat q

/-- The header cells of the CSV export (App.tsx line 129).  The moment
unit is written with U+22C5 (dot operator) in the source. -/
def csvHeaders : List String :=
  ["Timestamp", "P (kN)", "M (kN⋅m)", "B (m)", "D (m)", "e (m)",
   "qmax (kN/m²)", "Case"]

/-- One data row of the CSV export: the saved timestamp, the five stored
inputs and the stored result each passed through `formatNumber`, and the
stored case label, joined with commas. -/
def csvRow (r : CalculationResult) : String :=
  String.intercalate ","
    [r.timestamp, formatNumber r.P, formatNumber r.M, formatNumber r.B,
     formatNumber r.D, formatNumber r.e, formatNumber r.qmax, r.case]

/-- `exportToCSV` (App.tsx lines 126-142): no output when the log is
empty, otherwise the header row followed by one row per saved result in
log order, joined with newlines.  (The file download plumbing — Blob, MIME
type, anchor click — is outside the model.) -/
def exportToCSV (rs : List CalculationResult) : Option String :=
  if rs = [] then none
  else some (String.intercalate "\n" (String.intercalate "," csvHeaders :: rs.map csvRow))

/-! Helper lemmas: behaviour of the JS operations on finite operands. -/

namespace JSNum

@[simp] theorem isNaN_fin (q : ℚ) : (fin q).isNaN = false := rfl

@[simp] theorem truthy_fin (q : ℚ) : (fin q).truthy = decide (q ≠ 0) := rfl

@[simp] theorem lt_fin_fin (a b : ℚ) : (fin a).lt (fin b) = decide (a < b) := rfl

@[simp] theorem strictEq_fin_fin (a b : ℚ) :
    (fin a).strictEq (fin b) = decide (a = b) := rfl

@[simp] theorem add_fin_fin (a b : ℚ) : (fin a).add (fin b) = fin (a + b) := rfl

@[simp] theorem mul_fin_fin (a b : ℚ) : (fin a).mul (fin b) = fin (a * b) := rfl

@[simp] theorem sub_fin_fin (a b : ℚ) : (fin a).sub (fin b) = fin (a - b) := by
  show fin (a + -b) = fin (a - b)
  rw [← sub_eq_add_neg]

@[simp] theorem div_fin_fin (a b : ℚ) (h : b ≠ 0) :
    (fin a).div (fin b) = fin (a / b) := by
  simp [div, h]

end JSNum

/-- A field holding a finite value validates exactly when the value is
strictly positive. -/
theorem validateField_fin (q : ℚ) :
    validateField (some (.fin q)) = decide (0 < q) := by
  show (!(decide (q < 0) || decide (q = 0))) = decide (0 < q)
  rw [← Bool.decide_or, ← decide_not, decide_eq_decide]
  push_neg
  constructor
  · rintro ⟨h1, h2⟩
    exact lt_of_le_of_ne h1 (Ne.symm h2)
  · intro h
    exact ⟨h.le, h.ne'⟩

/-- Five positive finite fields validate. -/
theorem validateInputs_fin (p m b d e' : ℚ)
    (hp : 0 < p) (hm : 0 < m) (hb : 0 < b) (hd : 0 < d) (he : 0 < e') :
    validateInputs ⟨some (.fin p), some (.fin m), some (.fin b),
      some (.fin d), some (.fin e')⟩ = true := by
  simp [validateInputs, validateField_fin, hp, hm, hb, hd, he]

/-- On positive finite `M` and `P` the `||` fallback in the `ek`
computation is not taken: `ek = M / P`. -/
theorem ekJS_fin (p m d : ℚ) (hp : 0 < p) (hm : 0 < m) :
    ekJS (.fin m) (.fin p) (.fin d) = .fin (m / p) := by
  have hdiv : (JSNum.fin m).div (.fin p) = .fin (m / p) :=
    JSNum.div_fin_fin m p hp.ne'
  simp [ekJS, hdiv, (div_pos hm hp).ne']

/-- Case A of the branch on positive finite inputs with `e < M/P`. -/
theorem core_caseA (p m b d e' : ℚ)
    (hp : 0 < p) (hm : 0 < m) (hb : 0 < b) (hd : 0 < d)
    (hlt : e' < m / p) :
    calculateQmaxCore (.fin p) (.fin m) (.fin b) (.fin d) (.fin e') =
      (.fin (p / (b * d) + 6 * m / ((b * d) * d)), "Case A: e < ek") := by
  have hbd : b * d ≠ 0 := by positivity
  have hbdd : (b * d) * d ≠ 0 := by positivity
  simp [calculateQmaxCore, ekJS_fin p m d hp hm, hlt, hbd, hbdd]

/-- JS division of a positive finite value by (positive) zero gives
+Infinity. -/
theorem div_fin_zero (p : ℚ) (hp : 0 < p) :
    (JSNum.fin p).div (.fin 0) = .posInf := by
  simp [JSNum.div, hp, hp.ne']

/-- Case B of the branch on positive finite inputs with `e === M/P`. -/
theorem core_caseB (p m b d e' : ℚ)
    (hp : 0 < p) (hm : 0 < m) (hb : 0 < b) (hd : 0 < d)
    (heq : e' = m / p) :
    calculateQmaxCore (.fin p) (.fin m) (.fin b) (.fin d) (.fin e') =
      (.fin (p / (b * d) + 6 * m / ((b * d) * d)), "Case B: e = ek") := by
  have hbd : b * d ≠ 0 := by positivity
  have hbdd : (b * d) * d ≠ 0 := by positivity
  simp [calculateQmaxCore, ekJS_fin p m d hp hm, heq, hbd, hbdd]

/-- Case C of the branch on positive finite inputs with `e > M/P` and a
nonzero denominator `D/2 - e`. -/
theorem core_caseC (p m b d e' : ℚ)
    (hp : 0 < p) (hm : 0 < m) (hb : 0 < b)
    (hgt : m / p < e') (hne : d / 2 - e' ≠ 0) :
    calculateQmaxCore (.fin p) (.fin m) (.fin b) (.fin d) (.fin e') =
      (.fin (p / (3 / 2 * (b * (d / 2 - e')))), "Case C: e > ek") := by
  have h2 : (2 : ℚ) ≠ 0 := two_ne_zero
  have h32 : (3 : ℚ) / 2 ≠ 0 := by norm_num
  have hden : 3 / 2 * (b * (d / 2 - e')) ≠ 0 :=
    mul_ne_zero h32 (mul_ne_zero hb.ne' hne)
  simp [calculateQmaxCore, ekJS_fin p m d hp hm, hgt.asymm, ne_of_gt hgt,
    h2, h32, hden]

/-- Case C of the branch on positive finite inputs with `e > M/P` and
`e = D/2`: the denominator is zero and the result is +Infinity. -/
theorem core_caseC_inf (p m b d e' : ℚ)
    (hp : 0 < p) (hm : 0 < m)
    (hgt : m / p < e') (heq : e' = d / 2) :
    calculateQmaxCore (.fin p) (.fin m) (.fin b) (.fin d) (.fin e') =
      (.posInf, "Case C: e > ek") := by
  have h2 : (2 : ℚ) ≠ 0 := two_ne_zero
  have hzero : d / 2 - e' = 0 := by rw [heq]; ring
  simp [calculateQmaxCore, ekJS_fin p m d hp hm, hgt.asymm, ne_of_gt hgt,
    h2, hzero, div_fin_zero p hp]

/-- The five positive finite raw inputs `(P, M, B, D, e)`. -/
def finInputs (p m b d e' : ℚ) : RawInputs :=
  ⟨some (.fin p), some (.fin m), some (.fin b), some (.fin d), some (.fin e')⟩

/-- On validated inputs, `calculateQmax` stores the branch output and
clears the error. -/
theorem calculateQmax_fin (p m b d e' : ℚ) (s : AppState)
    (hp : 0 < p) (hm : 0 < m) (hb : 0 < b) (hd : 0 < d) (he : 0 < e') :
    calculateQmax (finInputs p m b d e') s =
      { s with
        qmax := some (calculateQmaxCore (.fin p) (.fin m) (.fin b) (.fin d) (.fin e')).1,
        calculationCase :=
          (calculateQmaxCore (.fin p) (.fin m) (.fin b) (.fin d) (.fin e')).2,
        error := "" } := by
  simp [calculateQmax, finInputs,
    validateInputs_fin p m b d e' hp hm hb hd he, parseField]

/-- An empty app state (fresh session, nothing computed or saved). -/
def exState : AppState :=
  { qmax := none, error := "", calculationCase := "", savedResults := [] }

/-- A saved calculation of the spec's worked example
(P=3, M=10, B=1.2, D=1.5, e=0.1, qmax=2149/90 ≈ 23.89, Case A). -/
def exResult : CalculationResult :=
  { timestamp := "01/01/2024, 10:00:00",
    P := .fin 3, M := .fin 10, B := .fin (6/5), D := .fin (3/2),
    e := .fin (1/10), qmax := .fin (2149/90), case := "Case A: e < ek" }

/-- An app state holding a computed result and one saved calculation. -/
def exStateFull : AppState :=
  { qmax := some (.fin (2149/90)), error := "",
    calculationCase := "Case A: e < ek", savedResults := [exResult] }

section ClaimTheorems

attribute [local semireducible] Rat.mul Rat.inv Rat.add Rat.sub

/-- C1: for five finite strictly positive inputs with `e < ek = M/P`,
`calculateQmax` stores `qmax = P/(B·D) + 6M/(B·D²)` and reports the
Case A label. -/
theorem caseA_formula (p m b d e' : ℚ) (s : AppState)
    (hp : 0 < p) (hm : 0 < m) (hb : 0 < b) (hd : 0 < d) (he : 0 < e')
    (hlt : e' < m / p) :
    (calculateQmax (finInputs p m b d e') s).qmax
        = some (.fin (p / (b * d) + 6 * m / (b * d ^ 2))) ∧
    (calculateQmax (finInputs p m b d e') s).calculationCase
        = "Case A: e < ek" := by
  rw [calculateQmax_fin p m b d e' s hp hm hb hd he,
      core_caseA p m b d e' hp hm hb hd hlt]
  refine ⟨?_, rfl⟩
  show some (JSNum.fin (p / (b * d) + 6 * m / ((b * d) * d))) = _
  have h : p / (b * d) + 6 * m / ((b * d) * d)
      = p / (b * d) + 6 * m / (b * d ^ 2) := by ring
  rw [h]

/-- C1 witness: the spec's worked example P=3, M=10, B=1.2, D=1.5,
e=0.1 (e = 0.1 < ek = 10/3), landing in Case A. -/
theorem caseA_formula_witness :
    ((0:ℚ) < 3) ∧ ((0:ℚ) < 10) ∧ ((0:ℚ) < 6/5) ∧ ((0:ℚ) < 3/2) ∧
    ((0:ℚ) < 1/10) ∧ ((1:ℚ)/10 < 10 / 3) ∧
    ((calculateQmax (finInputs 3 10 (6/5) (3/2) (1/10)) exState).qmax
        = some (.fin ((3:ℚ) / (6/5 * (3/2)) + 6 * 10 / (6/5 * (3/2) ^ 2))) ∧
     (calculateQmax (finInputs 3 10 (6/5) (3/2) (1/10)) exState).calculationCase
        = "Case A: e < ek") :=
  ⟨by norm_num, by norm_num, by norm_num, by norm_num, by norm_num, by norm_num,
   caseA_formula 3 10 (6/5) (3/2) (1/10) exState (by norm_num) (by norm_num)
     (by norm_num) (by norm_num) (by norm_num) (by norm_num)⟩

/-- C2 counterexample: P=1, M=1, B=1, D=4, e=2 satisfies the claim's
precondition (all positive, e > ek = 1) but `e = D/2`, so the stored qmax
is +Infinity, not the finite value of the Case C formula. -/
theorem caseC_formula_div_zero_cex :
    (calculateQmax (finInputs 1 1 1 4 2) exState).qmax = some JSNum.posInf ∧
    (calculateQmax (finInputs 1 1 1 4 2) exState).calculationCase
        = "Case C: e > ek" ∧
    some JSNum.posInf ≠ some (JSNum.fin ((1:ℚ) / (3 / 2 * (1 * (4 / 2 - 2))))) :=
  ⟨by decide, by decide, by simp⟩

/-- C2 as amended: for five finite strictly positive inputs with
`e > ek = M/P` and `e ≠ D/2`, `calculateQmax` stores
`qmax = P / (1.5·B·(D/2 − e))` and reports the Case C label (at `e = D/2`
the stored value is +Infinity instead). -/
theorem caseC_formula (p m b d e' : ℚ) (s : AppState)
    (hp : 0 < p) (hm : 0 < m) (hb : 0 < b) (hd : 0 < d) (he : 0 < e')
    (hgt : m / p < e') (hne : e' ≠ d / 2) :
    (calculateQmax (finInputs p m b d e') s).qmax
        = some (.fin (p / (1.5 * b * (d / 2 - e')))) ∧
    (calculateQmax (finInputs p m b d e') s).calculationCase
        = "Case C: e > ek" := by
  have hne' : d / 2 - e' ≠ 0 := sub_ne_zero.mpr (Ne.symm hne)
  rw [calculateQmax_fin p m b d e' s hp hm hb hd he,
      core_caseC p m b d e' hp hm hb hgt hne']
  refine ⟨?_, rfl⟩
  show some (JSNum.fin (p / (3 / 2 * (b * (d / 2 - e'))))) = _
  have h : p / (3 / 2 * (b * (d / 2 - e'))) = p / (1.5 * b * (d / 2 - e')) := by
    rw [(by norm_num : (1.5 : ℚ) = 3 / 2)]
    ring
  rw [h]

/-- C2 witness: P=3, M=10, B=1.2, D=1.5, e=4 (e > ek = 10/3, e ≠ D/2),
landing in Case C. -/
theorem caseC_formula_witness :
    ((0:ℚ) < 3) ∧ ((0:ℚ) < 10) ∧ ((0:ℚ) < 6/5) ∧ ((0:ℚ) < 3/2) ∧
    ((0:ℚ) < 4) ∧ ((10:ℚ) / 3 < 4) ∧ ((4:ℚ) ≠ 3/2 / 2) ∧
    ((calculateQmax (finInputs 3 10 (6/5) (3/2) 4) exState).qmax
        = some (.fin ((3:ℚ) / (1.5 * (6/5) * (3/2 / 2 - 4)))) ∧
     (calculateQmax (finInputs 3 10 (6/5) (3/2) 4) exState).calculationCase
        = "Case C: e > ek") :=
  ⟨by norm_num, by norm_num, by norm_num, by norm_num, by norm_num,
   by norm_num, by norm_num,
   caseC_formula 3 10 (6/5) (3/2) 4 exState (by norm_num) (by norm_num)
     (by norm_num) (by norm_num) (by norm_num) (by norm_num) (by norm_num)⟩

/-- C3: for five finite strictly positive inputs with `e` exactly equal
to `ek = M/P`, `calculateQmax` reports the distinct Case B label while
storing the same numeric value as Case A's formula. -/
theorem caseB_boundary (p m b d e' : ℚ) (s : AppState)
    (hp : 0 < p) (hm : 0 < m) (hb : 0 < b) (hd : 0 < d) (he : 0 < e')
    (heq : e' = m / p) :
    (calculateQmax (finInputs p m b d e') s).qmax
        = some (.fin (p / (b * d) + 6 * m / (b * d ^ 2))) ∧
    (calculateQmax (finInputs p m b d e') s).calculationCase
        = "Case B: e = ek" := by
  rw [calculateQmax_fin p m b d e' s hp hm hb hd he,
      core_caseB p m b d e' hp hm hb hd heq]
  refine ⟨?_, rfl⟩
  show some (JSNum.fin (p / (b * d) + 6 * m / ((b * d) * d))) = _
  have h : p / (b * d) + 6 * m / ((b * d) * d)
      = p / (b * d) + 6 * m / (b * d ^ 2) := by ring
  rw [h]

/-- C3 witness: P=1, M=2, B=1, D=1, e=2 = M/P lands exactly on the
boundary and is labelled Case B. -/
theorem caseB_boundary_witness :
    ((0:ℚ) < 1) ∧ ((0:ℚ) < 2) ∧ ((0:ℚ) < 1) ∧ ((0:ℚ) < 1) ∧
    ((0:ℚ) < 2) ∧ ((2:ℚ) = 2 / 1) ∧
    ((calculateQmax (finInputs 1 2 1 1 2) exState).qmax
        = some (.fin ((1:ℚ) / (1 * 1) + 6 * 2 / (1 * 1 ^ 2))) ∧
     (calculateQmax (finInputs 1 2 1 1 2) exState).calculationCase
        = "Case B: e = ek") :=
  ⟨by norm_num, by norm_num, by norm_num, by norm_num, by norm_num, by norm_num,
   caseB_boundary 1 2 1 1 2 exState (by norm_num) (by norm_num) (by norm_num)
     (by norm_num) (by norm_num) (by norm_num)⟩

/-- C10: for inputs satisfying the precondition with `e > ek`, the Case C
denominator can be zero or negative: at `e = D/2` the stored qmax is
+Infinity, for `e > D/2` it is a negative finite value, and in both
situations no error is raised (the error string is cleared). -/
theorem caseC_unguarded_blowup (p m b d e' : ℚ) (s : AppState)
    (hp : 0 < p) (hm : 0 < m) (hb : 0 < b) (hd : 0 < d) (he : 0 < e')
    (hgt : m / p < e') :
    (calculateQmax (finInputs p m b d e') s).error = "" ∧
    (e' = d / 2 →
      (calculateQmax (finInputs p m b d e') s).qmax = some JSNum.posInf) ∧
    (d / 2 < e' →
      (calculateQmax (finInputs p m b d e') s).qmax
          = some (.fin (p / (3 / 2 * (b * (d / 2 - e'))))) ∧
      p / (3 / 2 * (b * (d / 2 - e'))) < 0) := by
  rw [calculateQmax_fin p m b d e' s hp hm hb hd he]
  refine ⟨rfl, ?_, ?_⟩
  · intro heq
    rw [core_caseC_inf p m b d e' hp hm hgt heq]
  · intro hlt2
    have hneg : d / 2 - e' < 0 := sub_neg.mpr hlt2
    rw [core_caseC p m b d e' hp hm hb hgt hneg.ne]
    refine ⟨rfl, ?_⟩
    exact div_neg_of_pos_of_neg hp
      (mul_neg_of_pos_of_neg (by norm_num)
        (mul_neg_of_pos_of_neg hb hneg))

/-- C10 witness: P=1, M=1, B=1, D=4, e=2 satisfies the precondition with
e > ek = 1 and e = D/2, and the stored qmax is +Infinity with no error. -/
theorem caseC_unguarded_blowup_witness :
    ((0:ℚ) < 1) ∧ ((0:ℚ) < 1) ∧ ((0:ℚ) < 1) ∧ ((0:ℚ) < 4) ∧
    ((0:ℚ) < 2) ∧ ((1:ℚ) / 1 < 2) ∧
    ((calculateQmax (finInputs 1 1 1 4 2) exState).error = "" ∧
     ((2:ℚ) = 4 / 2 →
       (calculateQmax (finInputs 1 1 1 4 2) exState).qmax = some JSNum.posInf) ∧
     ((4:ℚ) / 2 < 2 →
       (calculateQmax (finInputs 1 1 1 4 2) exState).qmax
           = some (.fin ((1:ℚ) / (3 / 2 * (1 * (4 / 2 - 2))))) ∧
       (1:ℚ) / (3 / 2 * (1 * (4 / 2 - 2))) < 0)) :=
  ⟨by norm_num, by norm_num, by norm_num, by norm_num, by norm_num, by norm_num,
   caseC_unguarded_blowup 1 1 1 4 2 exState (by norm_num) (by norm_num)
     (by norm_num) (by norm_num) (by norm_num) (by norm_num)⟩

end ClaimTheorems

/-- The validity predicate asserted by the spec for one raw field,
following its words: the input is non-empty, numeric (not NaN), finite,
and strictly positive. -/
def specValidField : RawField → Bool
  | some (JSNum.fin q) => decide (0 < q)
  | _ => false

/-- What `validateField` actually accepts: a strictly positive finite
value, or +Infinity. -/
def okField (r : RawField) : Prop :=
  (∃ q : ℚ, r = some (JSNum.fin q) ∧ 0 < q) ∨ r = some JSNum.posInf

/-- Raw inputs whose `P` field parses to +Infinity (e.g. the text
`1e999`) and whose other fields are positive and finite. -/
def infInputs : RawInputs :=
  ⟨some JSNum.posInf, some (.fin 10), some (.fin (6/5)), some (.fin (3/2)),
   some (.fin (1/10))⟩

/-- Raw inputs whose `P` field is the empty string. -/
def exInvalid : RawInputs :=
  ⟨none, some (.fin 10), some (.fin (6/5)), some (.fin (3/2)),
   some (.fin (1/10))⟩

section ClaimTheorems2

attribute [local semireducible] Rat.mul Rat.inv Rat.add Rat.sub

/-- C4 counterexample: an input parsing to +Infinity is non-finite, yet
`validateInputs` accepts the five fields of `infInputs`, so validation
success is not equivalent to all five raw inputs being non-empty,
numeric, finite and strictly positive. -/
theorem validation_finiteness_cex :
    validateInputs infInputs = true ∧ specValidField infInputs.P = false :=
  ⟨by decide, by decide⟩

/-- C4 as amended: validation succeeds if and only if every one of the
five raw inputs is non-empty and parses either to a strictly positive
finite number or to +Infinity; empty, non-numeric (NaN), -Infinity, zero
and negative inputs all fail.  Finiteness is not checked. -/
theorem validation_characterization (i : RawInputs) :
    validateInputs i = true ↔
      okField i.P ∧ okField i.M ∧ okField i.B ∧ okField i.D ∧ okField i.e := by
  have hfield : ∀ r : RawField, validateField r = true ↔ okField r := by
    intro r
    match r with
    | none => simp [validateField, okField]
    | some JSNum.nan => simp [validateField, okField, JSNum.isNaN]
    | some JSNum.posInf =>
        simp [validateField, okField, JSNum.isNaN, JSNum.le, JSNum.lt,
          JSNum.strictEq]
    | some JSNum.negInf =>
        simp [validateField, okField, JSNum.isNaN, JSNum.le, JSNum.lt,
          JSNum.strictEq]
    | some (JSNum.fin q) =>
        rw [validateField_fin]
        simp [okField]
  simp only [validateInputs, Bool.and_eq_true, hfield, and_assoc]

/-- C5: when validation fails, `calculateQmax` clears the stored result,
sets the exact error message, leaves the saved-results log untouched, and
a subsequent save attempt is a no-op on the whole state. -/
theorem validation_failure_effects (i : RawInputs) (s : AppState)
    (ts : String) (j : RawInputs)
    (h : validateInputs i = false) :
    (calculateQmax i s).qmax = none ∧
    (calculateQmax i s).error
        = "Please enter valid positive numbers for all fields" ∧
    (calculateQmax i s).savedResults = s.savedResults ∧
    saveResult ts j (calculateQmax i s) = calculateQmax i s := by
  simp [calculateQmax, h, saveResult]

/-- C5 witness: an empty `P` field fails validation; on a state holding a
previous result, recomputing clears it, sets the message, and saving
changes nothing. -/
theorem validation_failure_effects_witness :
    validateInputs exInvalid = false ∧
    ((calculateQmax exInvalid exStateFull).qmax = none ∧
     (calculateQmax exInvalid exStateFull).error
         = "Please enter valid positive numbers for all fields" ∧
     (calculateQmax exInvalid exStateFull).savedResults
         = exStateFull.savedResults ∧
     saveResult "02/01/2024, 11:00:00" exInvalid
         (calculateQmax exInvalid exStateFull)
         = calculateQmax exInvalid exStateFull) :=
  ⟨by decide,
   validation_failure_effects exInvalid exStateFull "02/01/2024, 11:00:00"
     exInvalid (by decide)⟩

/-- C6 counterexample: at P=5 (nonzero) and M=0 the code falls back to
`ek = (1/6)·D` because `M/P` is zero (falsy), contradicting the claim
that the fallback is taken only when P is zero. -/
theorem ek_fallback_cex :
    ekJS (.fin 0) (.fin 5) (.fin 6) = .fin 1 ∧
    JSNum.fin (1 : ℚ) ≠ .fin ((0 : ℚ) / 5) :=
  ⟨by decide, by decide⟩

/-- C6 as amended: the fallback `(1/6)·D` is taken exactly when `M/P` is
falsy (zero or NaN), not when P is zero; under the enforced positivity
precondition the fallback is unreachable and `ek = M/P` always. -/
theorem ek_eq_M_div_P (p m d : ℚ) :
    (0 < p → 0 < m → ekJS (.fin m) (.fin p) (.fin d) = .fin (m / p)) ∧
    (m = 0 → ekJS (.fin m) (.fin p) (.fin d) = .fin (1 / 6 * d)) := by
  constructor
  · intro hp hm
    exact ekJS_fin p m d hp hm
  · intro hm0
    subst hm0
    by_cases hp0 : p = 0
    · subst hp0
      simp [ekJS, JSNum.div, JSNum.truthy, JSNum.mul]
    · have : (JSNum.fin 0).div (.fin p) = .fin (0 / p) :=
        JSNum.div_fin_fin 0 p hp0
      simp [ekJS, this, JSNum.truthy, JSNum.mul]

/-- C6 witness: P=5, M=10 are positive, and `ek = 10/5`. -/
theorem ek_eq_M_div_P_witness :
    ((0:ℚ) < 5) ∧ ((0:ℚ) < 10) ∧
    ekJS (.fin 10) (.fin 5) (.fin 7) = .fin ((10:ℚ) / 5) :=
  ⟨by norm_num, by norm_num,
   (ek_eq_M_div_P 5 10 7).1 (by norm_num) (by norm_num)⟩

/-- C7: the display/export formatter rounds to 3 significant figures and
trims insignificant trailing artifacts: 1.2345 ↦ "1.23", 100.0 ↦ "100",
0.001234 ↦ "0.00123" (and 1.2 keeps its short form). -/
theorem formatNumber_vectors :
    formatNumber (.fin (12345 / 10000)) = "1.23" ∧
    formatNumber (.fin 100) = "100" ∧
    formatNumber (.fin (1234 / 1000000)) = "0.00123" ∧
    formatNumber (.fin (12 / 10)) = "1.2" :=
  ⟨by decide, by decide, by decide, by decide⟩

/-- C8 counterexample: the header row the code writes differs from the
claim's quoted header (the code separates `kN` and `m` with U+22C5 while
the claim uses U+00B7), and the header has eight labelled columns, not
seven. -/
theorem csv_header_cex :
    String.intercalate "," csvHeaders ≠
      "Timestamp,P (kN),M (kN·m),B (m),D (m),e (m),qmax (kN/m²),Case" ∧
    csvHeaders.length = 8 :=
  ⟨by decide, by decide⟩

/-- C8 as amended: exporting a non-empty log of N results yields the
fixed eight-column header row (with U+22C5 in the moment unit) followed
by one row per saved result in append order — N+1 lines joined by
newlines — each row being the timestamp, the six numeric fields passed
through the 3-significant-figure formatter, and the case label;
exporting an empty log yields no output. -/
theorem csv_export_shape (rs : List CalculationResult) (r : CalculationResult)
    (h : rs ≠ []) :
    exportToCSV rs = some (String.intercalate "\n"
        ("Timestamp,P (kN),M (kN⋅m),B (m),D (m),e (m),qmax (kN/m²),Case"
          :: rs.map csvRow)) ∧
    ("Timestamp,P (kN),M (kN⋅m),B (m),D (m),e (m),qmax (kN/m²),Case"
        :: rs.map csvRow).length = rs.length + 1 ∧
    csvRow r = r.timestamp ++ "," ++ formatNumber r.P ++ ","
        ++ formatNumber r.M ++ "," ++ formatNumber r.B ++ ","
        ++ formatNumber r.D ++ "," ++ formatNumber r.e ++ ","
        ++ formatNumber r.qmax ++ "," ++ r.case ∧
    exportToCSV ([] : List CalculationResult) = none := by
  refine ⟨?_, by simp, rfl, rfl⟩
  have hh : String.intercalate "," csvHeaders =
      "Timestamp,P (kN),M (kN⋅m),B (m),D (m),e (m),qmax (kN/m²),Case" := by
    decide
  simp [exportToCSV, h, hh]

/-- C8 witness: exporting a log holding one saved result produces the
header plus one formatted row. -/
theorem csv_export_shape_witness :
    ([exResult] : List CalculationResult) ≠ [] ∧
    exportToCSV [exResult] = some
      ("Timestamp,P (kN),M (kN⋅m),B (m),D (m),e (m),qmax (kN/m²),Case\n01/01/2024, 10:00:00,3,10,1.2,1.5,0.1,23.9,Case A: e < ek") := by
  refine ⟨by simp, ?_⟩
  rw [(csv_export_shape [exResult] exResult (by simp)).1]
  decide

/-- C9: `calculateQmax` is deterministic in its five raw inputs —
re-running it is idempotent on the state, it never modifies the
saved-results log, and for validated inputs the stored result and case
label do not depend on the prior state. -/
theorem calculate_pure_idempotent (i : RawInputs) (s s' : AppState) :
    calculateQmax i (calculateQmax i s) = calculateQmax i s ∧
    (calculateQmax i s).savedResults = s.savedResults ∧
    (validateInputs i = true →
      (calculateQmax i s).qmax = (calculateQmax i s').qmax ∧
      (calculateQmax i s).calculationCase
          = (calculateQmax i s').calculationCase) := by
  cases hv : validateInputs i
  · simp [calculateQmax, hv]
  · simp [calculateQmax, hv]

/-- C9 witness: the worked example's inputs validate, recomputing twice
equals computing once, the log is untouched, and two different prior
states yield the same result and label. -/
theorem calculate_pure_idempotent_witness :
    validateInputs (finInputs 3 10 (6/5) (3/2) (1/10)) = true ∧
    calculateQmax (finInputs 3 10 (6/5) (3/2) (1/10))
        (calculateQmax (finInputs 3 10 (6/5) (3/2) (1/10)) exState)
      = calculateQmax (finInputs 3 10 (6/5) (3/2) (1/10)) exState ∧
    (calculateQmax (finInputs 3 10 (6/5) (3/2) (1/10)) exState).savedResults
      = exState.savedResults ∧
    (calculateQmax (finInputs 3 10 (6/5) (3/2) (1/10)) exState).qmax
      = (calculateQmax (finInputs 3 10 (6/5) (3/2) (1/10)) exStateFull).qmax ∧
    (calculateQmax (finInputs 3 10 (6/5) (3/2) (1/10)) exState).calculationCase
      = (calculateQmax (finInputs 3 10 (6/5) (3/2) (1/10)) exStateFull).calculationCase :=
  ⟨by decide,
   (calculate_pure_idempotent (finInputs 3 10 (6/5) (3/2) (1/10)) exState
      exStateFull).1,
   (calculate_pure_idempotent (finInputs 3 10 (6/5) (3/2) (1/10)) exState
      exStateFull).2.1,
   ((calculate_pure_idempotent (finInputs 3 10 (6/5) (3/2) (1/10)) exState
      exStateFull).2.2 (by decide)).1,
   ((calculate_pure_idempotent (finInputs 3 10 (6/5) (3/2) (1/10)) exState
      exStateFull).2.2 (by decide)).2⟩

end ClaimTheorems2
